import Mathlib

/-!
Verification of the Pi-hole v6 dashboard widgets
(`PiHoleTopQueries.vue`, `PiHoleStats.vue`, `PiHoleTraffic.vue`).

The widgets' `fetchData` methods are embedded as pure functions over an
explicit *response environment*: one record per widget holding the HTTP
status flag and parsed JSON body of each network call the method makes.
JSON values (the results of `await res.json()`) are modelled by the
inductive `JSValue`; a JavaScript `undefined` field read is modelled by
`getField` returning `none`. Numbers are modelled as integers (the
appliance returns integer counts; no claim depends on float behaviour).
Wall-clock `Date` values are modelled as non-negative local-time
milliseconds, so `getHours`/`getMinutes`/`setHours(0,0,0,0)` become plain
arithmetic on `Nat`.
-/

namespace PiHole

/-- A parsed JSON value, as returned by `await res.json()`.  `undefined`
is not a JSON value; it only arises from a missing field lookup and is
modelled by `Option JSValue` being `none`. -/
inductive JSValue where
  | null
  | bool (b : Bool)
  | num (n : Int)
  | str (s : String)
  | arr (elems : List JSValue)
  | obj (fields : List (String × JSValue))

/-- JavaScript truthiness of a value (`if (v)`); `NaN` is out of scope
since numbers are integers here. -/
def jsTruthy : JSValue → Bool
  | .null => false
  | .bool b => b
  | .num n => n != 0
  | .str s => s != ""
  | .arr _ => true
  | .obj _ => true

/-- Truthiness of a possibly-`undefined` value (`if (obj.field)`):
`undefined` is falsy. -/
def truthyOpt : Option JSValue → Bool
  | none => false
  | some v => jsTruthy v

/-- Field lookup on an object's field list (first binding wins; the
bodies the widgets receive have unique keys). -/
def lookupField : List (String × JSValue) → String → Option JSValue
  | [], _ => none
  | (k, v) :: rest, key => if k = key then some v else lookupField rest key

/-- JavaScript property read `v.key`.  On a non-object (a primitive or
an array) the named properties the widgets read are all absent, so the
read yields `undefined` (`none`).  A read on `null` throws a
`TypeError` in JavaScript; at the read sites whose enclosing check then
fails anyway (the auth-session, summary-validation, and history-series
checks) it is modelled as `none`, with only the error message
differing, while the one read site where `none` would instead succeed
— the `statusJson.blocking` read — carries an explicit null guard in
`statsTry`. -/
def getField : JSValue → String → Option JSValue
  | .obj fs, key => lookupField fs key
  | _, _ => none

/-- `v === null`. -/
def JSValue.isNull : JSValue → Bool
  | .null => true
  | _ => false

/-- `typeof v === 'object' && !Array.isArray(v)` for non-null `v`:
exactly the plain objects. -/
def JSValue.isPlainObject : JSValue → Bool
  | .obj _ => true
  | _ => false

/-- The field list of an object, `[]` for anything else. -/
def JSValue.objFields : JSValue → List (String × JSValue)
  | .obj fs => fs
  | _ => []

/-- `v === "s"` for a possibly-`undefined` value. -/
def strictEqStr (v : Option JSValue) (s : String) : Bool :=
  match v with
  | some (.str t) => t = s
  | _ => false

/-- Property assignment `obj.key = x` on an object's field list: updates
the existing binding in place, else appends. -/
def setFieldList : List (String × JSValue) → String → JSValue → List (String × JSValue)
  | [], key, x => [(key, x)]
  | (k, v) :: rest, key, x =>
      if k = key then (key, x) :: rest else (k, v) :: setFieldList rest key x

/-- Property assignment `v.key = x`; a no-op on non-objects (the widgets
only assign after a validation that forces an object). -/
def setField (v : JSValue) (key : String) (x : JSValue) : JSValue :=
  match v with
  | .obj fs => .obj (setFieldList fs key x)
  | other => other

/-- `(n).toFixed(1)` for an integer-valued number. -/
def toFixed1 (n : Int) : String := toString n ++ ".0"

/-!
### Session authentication

All three widgets share this block verbatim:

    const password = this.options.apiKey || '';
    let sid = null;
    if (password) {
      const authRes = await fetch(`${baseUrl}/api/auth`, ...);
      const authData = await authRes.json();
      if (!authData.session || authData.session.sid === undefined) {
        throw new Error('Authentication failed: no session ID');
      }
      sid = authData.session.sid;
      if (sid === null && authData.session.valid && authData.session.message === "no password set") {
        sid = null;
      }
    }
-/

/-- The authentication step: given the configured password and the
parsed body of the `/api/auth` response, produce the `sid` value that
the rest of the cycle uses, or the thrown error message.  When the
password is empty the auth call is skipped and `sid` stays `null`. -/
def authStep (password : String) (authBody : JSValue) : Except String JSValue :=
  if password = "" then
    .ok .null
  else
    let session := getField authBody "session"
    if !truthyOpt session then
      .error "Authentication failed: no session ID"
    else
      match session with
      | none => .error "Authentication failed: no session ID"
      | some s =>
        match getField s "sid" with
        | none => .error "Authentication failed: no session ID"
        | some sid =>
          let sid :=
            if sid.isNull && truthyOpt (getField s "valid")
                && strictEqStr (getField s "message") "no password set" then
              JSValue.null
            else sid
          .ok sid

/-- The request headers carry the `sid` header exactly when `sid` is
truthy (`sid ? { Accept, sid } : { Accept }`). -/
def sidHeaderOf (sid : JSValue) : Option JSValue :=
  if jsTruthy sid then some sid else none

/-!
### `PiHoleTopQueries.fetchData`
-/

/-- The network responses one `PiHoleTopQueries.fetchData` cycle sees:
the parsed `/api/auth` body (the code never checks that response's HTTP
status) and, for each of the two `/api/stats/top_domains` calls, the
`res.ok` flag and parsed body. -/
structure TopQueriesEnv where
  authBody : JSValue
  blockedOk : Bool
  blockedBody : JSValue
  allowedOk : Bool
  allowedBody : JSValue

/-- What one `PiHoleTopQueries.fetchData` cycle leaves behind:
`this.data.top_ads` / `this.data.top_queries` (as object field lists),
the re-thrown error if any, whether the auth endpoint was called, and
the `sid` header attached to the stat requests (`none` when no request
carried one). -/
structure TopQueriesOutcome where
  top_ads : List (String × JSValue)
  top_queries : List (String × JSValue)
  error : Option String
  authCalled : Bool
  sidHeader : Option JSValue

/-- The `try` block of `PiHoleTopQueries.fetchData` after the auth step:
fetch blocked then allowed top domains, run the shape check, and build
the two mappings. -/
def topQueriesTry (sid : JSValue) (env : TopQueriesEnv) :
    Except String (List (String × JSValue) × List (String × JSValue)) :=
  if !env.blockedOk then
    .error "Failed to fetch top blocked domains"
  else if !env.allowedOk then
    .error "Failed to fetch top allowed domains"
  else
    let blockedData := env.blockedBody
    let allowedData := env.allowedBody
    if blockedData.isNull || truthyOpt (getField blockedData "top_sources")
        || allowedData.isNull then
      .error "Expected data was not returned from Pi-Hole"
    else
      let top_ads := if blockedData.isPlainObject then blockedData.objFields else []
      let top_queries := if allowedData.isPlainObject then allowedData.objFields else []
      .ok (top_ads, top_queries)

/-- `PiHoleTopQueries.fetchData`: auth step, two top-domains fetches,
shape check, and the `catch` block that empties both mappings and
re-throws. -/
def topQueriesFetchData (apiKey : Option String) (env : TopQueriesEnv) : TopQueriesOutcome :=
  let password := apiKey.getD ""
  match authStep password env.authBody with
  | .error e =>
      { top_ads := [], top_queries := [], error := some e,
        authCalled := password != "", sidHeader := none }
  | .ok sid =>
      match topQueriesTry sid env with
      | .error e =>
          { top_ads := [], top_queries := [], error := some e,
            authCalled := password != "", sidHeader := none }
      | .ok (ads, queries) =>
          { top_ads := ads, top_queries := queries, error := none,
            authCalled := password != "", sidHeader := sidHeaderOf sid }

/-!
### `PiHoleStats.fetchData`
-/

/-- The network responses one `PiHoleStats.fetchData` cycle sees. -/
structure StatsEnv where
  authBody : JSValue
  summaryOk : Bool
  summaryBody : JSValue
  statusOk : Bool
  statusBody : JSValue

/-- What one `PiHoleStats.fetchData` cycle leaves behind: `this.data`
(the mutated summary object, `{}` after a failure) and the re-thrown
error if any. -/
structure StatsOutcome where
  data : JSValue
  error : Option String

/-- The `try` block of `PiHoleStats.fetchData` after the auth step:
fetch summary, fetch blocking status, validate the four summary fields,
derive `status` from `blocking` (missing defaults to `true`), and format
a numeric percentage with `toFixed(1)`.  The expression
`statusJson.blocking !== undefined` throws a `TypeError` when the
parsed blocking-status body is `null` (reading a property of `null`),
so a null status body fails the cycle there rather than defaulting to
enabled; on any other body a missing `blocking` property reads as
`undefined` and defaults to `true`. -/
def statsTry (sid : JSValue) (env : StatsEnv) : Except String JSValue :=
  if !env.summaryOk then
    .error "Failed to fetch summary data"
  else if !env.statusOk then
    .error "Failed to fetch status"
  else
    let summaryJson := env.summaryBody
    let statusJson := env.statusBody
    if (getField summaryJson "domains_being_blocked").isNone
        || (getField summaryJson "dns_queries_today").isNone
        || (getField summaryJson "ads_blocked_today").isNone
        || (getField summaryJson "ads_percentage_today").isNone then
      .error "Expected data was not returned from Pi-Hole"
    else if statusJson.isNull then
      .error "TypeError: Cannot read properties of null (reading 'blocking')"
    else
      let statusEnabled :=
        match getField statusJson "blocking" with
        | some b => b
        | none => .bool true
      let summaryJson :=
        setField summaryJson "status"
          (.str (if jsTruthy statusEnabled then "enabled" else "disabled"))
      let summaryJson :=
        match getField summaryJson "ads_percentage_today" with
        | some (.num n) => setField summaryJson "ads_percentage_today" (.str (toFixed1 n))
        | _ => summaryJson
      .ok summaryJson

/-- `PiHoleStats.fetchData`: auth step, summary and blocking-status
fetches, validation, merge, and the `catch` block that resets
`this.data` to `{}` and re-throws. -/
def statsFetchData (apiKey : Option String) (env : StatsEnv) : StatsOutcome :=
  let password := apiKey.getD ""
  match authStep password env.authBody with
  | .error e => { data := .obj [], error := some e }
  | .ok sid =>
      match statsTry sid env with
      | .error e => { data := .obj [], error := some e }
      | .ok d => { data := d, error := none }

/-!
### `PiHoleTraffic.fetchData` and the time-series reconstruction

A `Date` is modelled as local-time milliseconds (a `Nat`), so
`getHours` is `t / 3600000 % 24`, `getMinutes` is `t / 60000 % 60`, and
`setHours(0,0,0,0)` on "now" is `now - now % 86400000`.
-/

/-- `t.getHours()` for a local-milliseconds timestamp. -/
def getHours (t : Nat) : Nat := t / 3600000 % 24

/-- `t.getMinutes()` for a local-milliseconds timestamp. -/
def getMinutes (t : Nat) : Nat := t / 60000 % 60

/-- The hour figure the label shows: `hours % 12`, with `0` promoted to
`12` (`if (hours === 0) hours = 12`). -/
def labelHour12 (t : Nat) : Nat :=
  let hours := getHours t % 12
  if hours = 0 then 12 else hours

/-- The minute figure the label shows, zero-padded to two digits
(`minutes < 10 ? '0' + minutes : '' + minutes`). -/
def labelMinuteStr (t : Nat) : String :=
  let minutes := getMinutes t
  if minutes < 10 then "0" ++ toString minutes else toString minutes

/-- The AM/PM suffix (`hours >= 12 ? 'PM' : 'AM'`, on the 24-hour value
before the `% 12` reduction). -/
def labelAmPm (t : Nat) : String :=
  if 12 ≤ getHours t then "PM" else "AM"

/-- One time label, e.g. `"5:55 PM"`. -/
def formatLabel (t : Nat) : String :=
  toString (labelHour12 t) ++ ":" ++ labelMinuteStr t ++ " " ++ labelAmPm t

/-- The start-of-series timestamp: `now - 24h` when the series has
exactly 144 points, otherwise midnight of the current local day. -/
def trafficStartTime (totalPoints now : Nat) : Nat :=
  if totalPoints = 144 then now - 86400000 else now - now % 86400000

/-- The timestamps of the reconstructed points: the start time plus
`i * 600000` for each index `i` (`600000 ms = 10 minutes`). -/
def bucketTimes (totalPoints now : Nat) : List Nat :=
  (List.range totalPoints).map (fun i => trafficStartTime totalPoints now + i * 600000)

/-- The chart state `PiHoleTraffic.fetchData` writes on success:
`this.labels`, `this.queriesData`, `this.blockedData`. -/
structure TrafficData where
  labels : List String
  queriesData : List JSValue
  blockedData : List JSValue

/-- The reconstruction step of `PiHoleTraffic.fetchData`: truncate both
series to the shorter length, build one label per 10-minute bucket from
the start-time policy, and slice the raw series to the matched length. -/
def reconstruct (domainsSeries adsSeries : List JSValue) (now : Nat) : TrafficData :=
  let totalPoints := min domainsSeries.length adsSeries.length
  { labels := (bucketTimes totalPoints now).map formatLabel,
    queriesData := domainsSeries.take totalPoints,
    blockedData := adsSeries.take totalPoints }

/-- The network responses and wall clock one `PiHoleTraffic.fetchData`
cycle sees. -/
structure TrafficEnv where
  authBody : JSValue
  historyOk : Bool
  historyBody : JSValue
  now : Nat

/-- What one `PiHoleTraffic.fetchData` cycle leaves behind. -/
structure TrafficOutcome where
  labels : List String
  queriesData : List JSValue
  blockedData : List JSValue
  error : Option String
  authCalled : Bool
  sidHeader : Option JSValue

/-- The element list of a fetched series value.  The widget only checks
the two series for truthiness before taking `.length` and `.slice`; the
appliance returns arrays, and a non-array truthy series (which is not
produced by the appliance) is embedded as the empty series. -/
def seriesElems : Option JSValue → List JSValue
  | some (.arr xs) => xs
  | _ => []

/-- The `try` block of `PiHoleTraffic.fetchData` after the auth step:
fetch `/api/history`, require both series fields truthy, and
reconstruct. -/
def trafficTry (sid : JSValue) (env : TrafficEnv) : Except String TrafficData :=
  if !env.historyOk then
    .error "Failed to fetch history data"
  else
    let historyData := env.historyBody
    if !truthyOpt (getField historyData "domains_over_time")
        || !truthyOpt (getField historyData "ads_over_time") then
      .error "Expected data was not returned from Pi-Hole"
    else
      let domainsSeries := seriesElems (getField historyData "domains_over_time")
      let adsSeries := seriesElems (getField historyData "ads_over_time")
      .ok (reconstruct domainsSeries adsSeries env.now)

/-- `PiHoleTraffic.fetchData`: auth step, history fetch, validation,
reconstruction, and the `catch` block that clears all three chart
arrays and re-throws. -/
def trafficFetchData (apiKey : Option String) (env : TrafficEnv) : TrafficOutcome :=
  let password := apiKey.getD ""
  match authStep password env.authBody with
  | .error e =>
      { labels := [], queriesData := [], blockedData := [], error := some e,
        authCalled := password != "", sidHeader := none }
  | .ok sid =>
      match trafficTry sid env with
      | .error e =>
          { labels := [], queriesData := [], blockedData := [], error := some e,
            authCalled := password != "", sidHeader := none }
      | .ok d =>
          { labels := d.labels, queriesData := d.queriesData, blockedData := d.blockedData,
            error := none, authCalled := password != "", sidHeader := sidHeaderOf sid }

/-!
### Helper lemmas
-/

/-- A value that passes `=== null` is `null`. -/
theorem isNull_eq_true {v : JSValue} (h : v.isNull = true) : v = JSValue.null := by
  cases v <;> simp [JSValue.isNull] at h ⊢

/-- The "no password set" special case in the auth block is a no-op:
`sid` is only rewritten to `null` when it already is `null`. -/
theorem specialCase_noop (sid : JSValue) (a b : Bool) :
    (if sid.isNull && a && b then JSValue.null else sid) = sid := by
  cases sid <;> cases a <;> cases b <;> simp [JSValue.isNull]

/-- With an empty password the auth call is skipped and `sid` stays
`null`. -/
theorem authStep_empty_password (body : JSValue) :
    authStep "" body = Except.ok JSValue.null := rfl

/-- Reading back the key just assigned yields the assigned value. -/
theorem lookupField_setFieldList_same (fs : List (String × JSValue)) (key : String)
    (x : JSValue) : lookupField (setFieldList fs key x) key = some x := by
  induction fs with
  | nil => simp [setFieldList, lookupField]
  | cons kv rest ih =>
      obtain ⟨k, v⟩ := kv
      by_cases h : k = key
      · simp [setFieldList, lookupField, h]
      · simp [setFieldList, lookupField, h, ih]

/-- Assigning one key leaves every other key's lookup unchanged. -/
theorem lookupField_setFieldList_ne (fs : List (String × JSValue)) (key keyB : String)
    (x : JSValue) (h : keyB ≠ key) :
    lookupField (setFieldList fs key x) keyB = lookupField fs keyB := by
  induction fs with
  | nil => simp [setFieldList, lookupField, Ne.symm h]
  | cons kv rest ih =>
      obtain ⟨k, v⟩ := kv
      by_cases hk : k = key
      · subst hk
        simp [setFieldList, lookupField, Ne.symm h]
      · simp [setFieldList, lookupField, hk, ih]

/-- `getField` after `setField` at the same key on an object. -/
theorem getField_setField_same (fs : List (String × JSValue)) (key : String) (x : JSValue) :
    getField (setField (JSValue.obj fs) key x) key = some x := by
  simp [getField, setField, lookupField_setFieldList_same]

/-- `getField` after `setField` at a different key on an object. -/
theorem getField_setField_ne (fs : List (String × JSValue)) (key keyB : String)
    (x : JSValue) (h : keyB ≠ key) :
    getField (setField (JSValue.obj fs) key x) keyB = getField (JSValue.obj fs) keyB := by
  simp [getField, setField, lookupField_setFieldList_ne _ _ _ _ h]

/-!
### Claim theorems
-/

/-- C2, counterexample.  A response whose session carries an explicitly
null `sid` but is *not* marked valid (no `valid: true`, no
`"no password set"` message) still makes `authStep` succeed with a null
token: the claim's demand that this fail with an `AuthError` is false.
The special-case `if` in the source reassigns `sid = null` when `sid`
is already `null`, so it can never turn a null token into a failure. -/
theorem authStep_null_sid_succeeds :
    authStep "s3cr3t"
      (JSValue.obj [("session", JSValue.obj [("sid", JSValue.null), ("valid", JSValue.bool false)])]) =
      Except.ok JSValue.null := by rfl

/-- C2, amended: `authStep` (with a non-empty password) fails with the
`AuthError` exactly when the `session` field is falsy or absent or its
`sid` field is structurally missing; whenever `sid` is present —
including an explicit `null` under any `valid`/`message` combination —
it succeeds with that `sid` as the token (`none`/null token for a null
`sid`); the `valid` + `"no password set"` special case never changes
the outcome. -/
theorem authStep_characterization (password : String) (hp : password ≠ "") (body : JSValue) :
    authStep password body =
      (match getField body "session" with
       | none => Except.error "Authentication failed: no session ID"
       | some s =>
         if jsTruthy s then
           match getField s "sid" with
           | none => Except.error "Authentication failed: no session ID"
           | some sid => Except.ok sid
         else Except.error "Authentication failed: no session ID") := by
  unfold authStep
  rw [if_neg hp]
  cases hs : getField body "session" with
  | none => simp [truthyOpt]
  | some s =>
      cases ht : jsTruthy s with
      | false => simp [truthyOpt, ht]
      | true =>
          cases hsid : getField s "sid" with
          | none => simp [truthyOpt, ht, hsid]
          | some sid =>
              simp only [truthyOpt, ht, hsid, Bool.not_true, Bool.false_eq_true,
                if_false, specialCase_noop]
              simp

/-- C2, witness: a concrete session body with a string `sid` makes
`authStep` succeed with that token. -/
theorem authStep_characterization_witness :
    authStep "pw" (JSValue.obj [("session", JSValue.obj [("sid", JSValue.str "tok")])]) =
      Except.ok (JSValue.str "tok") := by
  rw [authStep_characterization "pw" (by decide)
    (JSValue.obj [("session", JSValue.obj [("sid", JSValue.str "tok")])])]
  rfl

/-- C9: with an empty (or absent) `apiKey`, both widgets skip the auth
network call entirely, the session token stays `null`, and the stat
requests carry no `sid` header. -/
theorem empty_secret_skips_auth (apiKey : Option String)
    (hkey : apiKey = none ∨ apiKey = some "")
    (envQ : TopQueriesEnv) (envT : TrafficEnv) :
    authStep (apiKey.getD "") envQ.authBody = Except.ok JSValue.null ∧
    (topQueriesFetchData apiKey envQ).authCalled = false ∧
    (topQueriesFetchData apiKey envQ).sidHeader = none ∧
    (trafficFetchData apiKey envT).authCalled = false ∧
    (trafficFetchData apiKey envT).sidHeader = none := by
  have hd : apiKey.getD "" = "" := by rcases hkey with rfl | rfl <;> rfl
  refine ⟨by rw [hd]; exact authStep_empty_password _, ?_, ?_, ?_, ?_⟩
  · simp only [topQueriesFetchData, hd, authStep_empty_password]
    cases htry : topQueriesTry JSValue.null envQ <;> simp [htry]
  · simp only [topQueriesFetchData, hd, authStep_empty_password]
    cases htry : topQueriesTry JSValue.null envQ <;> simp [htry, sidHeaderOf, jsTruthy]
  · simp only [trafficFetchData, hd, authStep_empty_password]
    cases htry : trafficTry JSValue.null envT <;> simp [htry]
  · simp only [trafficFetchData, hd, authStep_empty_password]
    cases htry : trafficTry JSValue.null envT <;> simp [htry, sidHeaderOf, jsTruthy]

/-- C9, witness: a concrete absent `apiKey` with simple environments. -/
theorem empty_secret_skips_auth_witness :
    (topQueriesFetchData none
      { authBody := JSValue.null, blockedOk := true, blockedBody := JSValue.obj [],
        allowedOk := true, allowedBody := JSValue.obj [] }).authCalled = false :=
  (empty_secret_skips_auth none (Or.inl rfl)
    { authBody := JSValue.null, blockedOk := true, blockedBody := JSValue.obj [],
      allowedOk := true, allowedBody := JSValue.obj [] }
    { authBody := JSValue.null, historyOk := true, historyBody := JSValue.obj [],
      now := 0 }).2.1

/-- C3: in every widget variant, whenever a refresh cycle ends with a
re-thrown error, the widget's data is in its empty default form —
`{}` for the status/summary widget, two empty mappings for the
top-domains widget, and three empty arrays for the traffic widget — so
a consumer never observes partial data from a failed cycle. -/
theorem failure_resets_data (apiKey : Option String)
    (envS : StatsEnv) (envQ : TopQueriesEnv) (envT : TrafficEnv) :
    ((statsFetchData apiKey envS).error.isSome = true →
       (statsFetchData apiKey envS).data = JSValue.obj []) ∧
    ((topQueriesFetchData apiKey envQ).error.isSome = true →
       (topQueriesFetchData apiKey envQ).top_ads = [] ∧
       (topQueriesFetchData apiKey envQ).top_queries = []) ∧
    ((trafficFetchData apiKey envT).error.isSome = true →
       (trafficFetchData apiKey envT).labels = [] ∧
       (trafficFetchData apiKey envT).queriesData = [] ∧
       (trafficFetchData apiKey envT).blockedData = []) := by
  refine ⟨?_, ?_, ?_⟩
  · simp only [statsFetchData]
    cases ha : authStep (apiKey.getD "") envS.authBody with
    | error e => simp
    | ok sid => cases ht : statsTry sid envS <;> simp [ht]
  · simp only [topQueriesFetchData]
    cases ha : authStep (apiKey.getD "") envQ.authBody with
    | error e => simp
    | ok sid => cases ht : topQueriesTry sid envQ <;> simp [ht]
  · simp only [trafficFetchData]
    cases ha : authStep (apiKey.getD "") envT.authBody with
    | error e => simp
    | ok sid => cases ht : trafficTry sid envT <;> simp [ht]

/-- C3, witness: concrete failing cycles (an HTTP failure on the first
stat fetch of each widget) leave every widget's data empty. -/
theorem failure_resets_data_witness :
    (statsFetchData none
      { authBody := JSValue.null, summaryOk := false, summaryBody := JSValue.null,
        statusOk := true, statusBody := JSValue.obj [] }).data = JSValue.obj [] :=
  (failure_resets_data none
    { authBody := JSValue.null, summaryOk := false, summaryBody := JSValue.null,
      statusOk := true, statusBody := JSValue.obj [] }
    { authBody := JSValue.null, blockedOk := false, blockedBody := JSValue.null,
      allowedOk := true, allowedBody := JSValue.obj [] }
    { authBody := JSValue.null, historyOk := false, historyBody := JSValue.null,
      now := 0 }).1 (by rfl)

/-- C1, counterexample.  A `null` top-domains payload — one of the very
shapes the claim says is silently replaced with an empty mapping — makes
the widget throw (`blockedData === null` is the first disjunct of the
shape check), so the claim's "does not raise an error" is false at this
input. -/
theorem topdomains_null_payload_errors :
    (topQueriesFetchData none
      { authBody := JSValue.null, blockedOk := true, blockedBody := JSValue.null,
        allowedOk := true, allowedBody := JSValue.obj [] }).error =
      some "Expected data was not returned from Pi-Hole" := by rfl

/-- C1, amended: for a top-domains payload that is *non-null* but not a
non-array object (an array, string, number, or boolean), the widget
emits an empty mapping for that category and raises no error — provided
the other category's payload is also non-null and the blocked payload's
`top_sources` field is not truthy; a `null` payload instead raises an
error. -/
theorem topdomains_nonobject_fallback (apiKey : Option String) (env : TopQueriesEnv)
    (v : JSValue)
    (hauth : authStep (apiKey.getD "") env.authBody = Except.ok v)
    (hbOk : env.blockedOk = true) (haOk : env.allowedOk = true)
    (hbn : env.blockedBody.isNull = false) (han : env.allowedBody.isNull = false)
    (hts : truthyOpt (getField env.blockedBody "top_sources") = false) :
    (topQueriesFetchData apiKey env).error = none ∧
    (env.blockedBody.isPlainObject = false → (topQueriesFetchData apiKey env).top_ads = []) ∧
    (env.allowedBody.isPlainObject = false → (topQueriesFetchData apiKey env).top_queries = []) := by
  have houtcome : topQueriesFetchData apiKey env =
      { top_ads := if env.blockedBody.isPlainObject then env.blockedBody.objFields else [],
        top_queries := if env.allowedBody.isPlainObject then env.allowedBody.objFields else [],
        error := none, authCalled := apiKey.getD "" != "", sidHeader := sidHeaderOf v } := by
    simp only [topQueriesFetchData, hauth]
    simp only [topQueriesTry, hbOk, haOk, hbn, han, hts, Bool.not_true, Bool.false_or,
      Bool.or_false, if_false, Bool.false_eq_true, ite_false]
  refine ⟨by rw [houtcome], ?_, ?_⟩
  · intro h
    rw [houtcome]
    simp [h]
  · intro h
    rw [houtcome]
    simp [h]

/-- C1, witness: an array blocked payload and a string allowed payload
both fall back to empty mappings without an error. -/
theorem topdomains_nonobject_fallback_witness :
    (topQueriesFetchData none
      { authBody := JSValue.null, blockedOk := true, blockedBody := JSValue.arr [],
        allowedOk := true, allowedBody := JSValue.str "unexpected" }).error = none ∧
    (topQueriesFetchData none
      { authBody := JSValue.null, blockedOk := true, blockedBody := JSValue.arr [],
        allowedOk := true, allowedBody := JSValue.str "unexpected" }).top_ads = [] := by
  have h := topdomains_nonobject_fallback none
    { authBody := JSValue.null, blockedOk := true, blockedBody := JSValue.arr [],
      allowedOk := true, allowedBody := JSValue.str "unexpected" }
    JSValue.null rfl rfl rfl rfl rfl rfl
  exact ⟨h.1, h.2.1 rfl⟩

/-- C10: a blocked top-domains payload that *is* a non-null, non-array
object but whose `top_sources` field is truthy makes the widget throw
and empty both mappings — it is never used as the blocked mapping, even
though it satisfies the stated object shape. -/
theorem blocked_top_sources_errors (apiKey : Option String) (env : TopQueriesEnv)
    (v w : JSValue)
    (hauth : authStep (apiKey.getD "") env.authBody = Except.ok v)
    (hbOk : env.blockedOk = true) (haOk : env.allowedOk = true)
    (hobj : env.blockedBody.isPlainObject = true)
    (hts : getField env.blockedBody "top_sources" = some w)
    (hw : jsTruthy w = true) :
    (topQueriesFetchData apiKey env).error =
      some "Expected data was not returned from Pi-Hole" ∧
    (topQueriesFetchData apiKey env).top_ads = [] ∧
    (topQueriesFetchData apiKey env).top_queries = [] := by
  have htruthy : truthyOpt (getField env.blockedBody "top_sources") = true := by
    rw [hts]; exact hw
  simp only [topQueriesFetchData, hauth]
  simp only [topQueriesTry, hbOk, haOk, htruthy, Bool.not_true, Bool.true_or,
    Bool.or_true, if_false, Bool.false_eq_true, ite_false, if_true]
  simp

/-- C10, witness: a concrete blocked payload `{top_sources: {}}` (a
non-null, non-array object with truthy `top_sources`) errors out and
both mappings are emptied. -/
theorem blocked_top_sources_errors_witness :
    (topQueriesFetchData none
      { authBody := JSValue.null, blockedOk := true,
        blockedBody := JSValue.obj [("top_sources", JSValue.obj [])],
        allowedOk := true, allowedBody := JSValue.obj [] }).error =
      some "Expected data was not returned from Pi-Hole" :=
  (blocked_top_sources_errors none
    { authBody := JSValue.null, blockedOk := true,
      blockedBody := JSValue.obj [("top_sources", JSValue.obj [])],
      allowedOk := true, allowedBody := JSValue.obj [] }
    JSValue.null (JSValue.obj []) rfl rfl rfl rfl rfl rfl).1

/-- C6: a summary response with any of the four required fields
undefined (an explicit is-defined check, so `0` counts as present)
makes `PiHoleStats.fetchData` throw the validation error and leave
`this.data` empty. -/
theorem summary_missing_field_fails (apiKey : Option String) (env : StatsEnv)
    (v : JSValue)
    (hauth : authStep (apiKey.getD "") env.authBody = Except.ok v)
    (hsum : env.summaryOk = true) (hstat : env.statusOk = true)
    (hmiss : (getField env.summaryBody "domains_being_blocked").isNone = true ∨
             (getField env.summaryBody "dns_queries_today").isNone = true ∨
             (getField env.summaryBody "ads_blocked_today").isNone = true ∨
             (getField env.summaryBody "ads_percentage_today").isNone = true) :
    (statsFetchData apiKey env).error = some "Expected data was not returned from Pi-Hole" ∧
    (statsFetchData apiKey env).data = JSValue.obj [] := by
  have htry : statsTry v env = Except.error "Expected data was not returned from Pi-Hole" := by
    rcases hmiss with h | h | h | h <;> simp [statsTry, hsum, hstat, h]
  simp [statsFetchData, hauth, htry]

/-- C6, witness: a summary body with `ads_percentage_today` missing
(but a present zero count elsewhere) fails with the validation error
and an empty data object. -/
theorem summary_missing_field_fails_witness :
    (statsFetchData none
      { authBody := JSValue.null, summaryOk := true,
        summaryBody := JSValue.obj [("domains_being_blocked", JSValue.num 0),
          ("dns_queries_today", JSValue.num 5), ("ads_blocked_today", JSValue.num 2)],
        statusOk := true, statusBody := JSValue.obj [] }).error =
      some "Expected data was not returned from Pi-Hole" :=
  (summary_missing_field_fails none
    { authBody := JSValue.null, summaryOk := true,
      summaryBody := JSValue.obj [("domains_being_blocked", JSValue.num 0),
        ("dns_queries_today", JSValue.num 5), ("ads_blocked_today", JSValue.num 2)],
      statusOk := true, statusBody := JSValue.obj [] }
    JSValue.null rfl rfl rfl (Or.inr (Or.inr (Or.inr rfl)))).1

/-- When the summary validation passes and the blocking-status body is
not `null`, `statsTry` succeeds and the emitted object's `status` field
is `"enabled"` or `"disabled"` by the truthiness of the `blocking`
field, a missing `blocking` defaulting to enabled. -/
theorem statsTry_status_field (sid : JSValue) (env : StatsEnv)
    (hsum : env.summaryOk = true) (hstat : env.statusOk = true)
    (hsnull : env.statusBody.isNull = false)
    (fs : List (String × JSValue)) (hfs : env.summaryBody = JSValue.obj fs)
    (x1 x2 x3 x4 : JSValue)
    (hx1 : getField env.summaryBody "domains_being_blocked" = some x1)
    (hx2 : getField env.summaryBody "dns_queries_today" = some x2)
    (hx3 : getField env.summaryBody "ads_blocked_today" = some x3)
    (hx4 : getField env.summaryBody "ads_percentage_today" = some x4) :
    ∃ d, statsTry sid env = Except.ok d ∧
      getField d "status" = some (JSValue.str
        (if jsTruthy (match getField env.statusBody "blocking" with
             | some b => b
             | none => JSValue.bool true) then "enabled" else "disabled")) := by
  have hne1 : "ads_percentage_today" ≠ "status" := by decide
  have hne2 : "status" ≠ "ads_percentage_today" := by decide
  have hcond : ((getField env.summaryBody "domains_being_blocked").isNone
      || (getField env.summaryBody "dns_queries_today").isNone
      || (getField env.summaryBody "ads_blocked_today").isNone
      || (getField env.summaryBody "ads_percentage_today").isNone) = false := by
    rw [hx1, hx2, hx3, hx4]; rfl
  simp only [statsTry, hsum, hstat, hcond, hsnull, Bool.not_true, Bool.false_eq_true,
    if_false, ite_false]
  rw [hfs]
  generalize (if jsTruthy (match getField env.statusBody "blocking" with
      | some b => b
      | none => JSValue.bool true) then "enabled" else "disabled") = sv
  have hap : getField (setField (JSValue.obj fs) "status" (JSValue.str sv))
      "ads_percentage_today" = some x4 := by
    rw [getField_setField_ne fs _ _ _ hne1, ← hfs]; exact hx4
  rw [hap]
  cases x4 with
  | num n =>
      refine ⟨_, rfl, ?_⟩
      have hred : setField (JSValue.obj fs) "status" (JSValue.str sv) =
          JSValue.obj (setFieldList fs "status" (JSValue.str sv)) := rfl
      rw [hred, getField_setField_ne (setFieldList fs "status" (JSValue.str sv)) _ _ _ hne2,
        ← hred]
      exact getField_setField_same fs _ _
  | null => exact ⟨_, rfl, getField_setField_same fs _ _⟩
  | bool b => exact ⟨_, rfl, getField_setField_same fs _ _⟩
  | str s => exact ⟨_, rfl, getField_setField_same fs _ _⟩
  | arr xs => exact ⟨_, rfl, getField_setField_same fs _ _⟩
  | obj gs => exact ⟨_, rfl, getField_setField_same fs _ _⟩

/-- C7, counterexample.  A blocking-status response `{blocking: 0}` has
its `blocking` field present and *not* equal to `false`, yet the
emitted `status` field is `"disabled"`: the code tests the field's
truthiness (`statusEnabled ? 'enabled' : 'disabled'`), not equality
with `false`, so the claim's "exactly when present and false" is false
at this input. -/
theorem status_disabled_on_zero_blocking :
    getField (statsFetchData none
      { authBody := JSValue.null, summaryOk := true,
        summaryBody := JSValue.obj [("domains_being_blocked", JSValue.num 1),
          ("dns_queries_today", JSValue.num 2), ("ads_blocked_today", JSValue.num 3),
          ("ads_percentage_today", JSValue.num 4)],
        statusOk := true,
        statusBody := JSValue.obj [("blocking", JSValue.num 0)] }).data "status" =
      some (JSValue.str "disabled") ∧
    getField (JSValue.obj [("blocking", JSValue.num 0)]) "blocking" = some (JSValue.num 0) ∧
    JSValue.num 0 ≠ JSValue.bool false := by
  refine ⟨by rfl, by rfl, fun h => JSValue.noConfusion h⟩

/-- C7, amended: when a cycle reaches the `blocking` read (auth
succeeded, both fetches HTTP-ok, all four summary fields present),
then: if the blocking-status body is `null`, the read of its `blocking`
property throws a `TypeError`, the cycle fails, and the data object is
emptied; otherwise the cycle emits without error and the `status` field
is `"disabled"` exactly when the `blocking` field is present and
*falsy* (`false`, `0`, `""`, or `null`), a missing `blocking` field —
including on a non-object body — defaulting to enabled rather than
failing. -/
theorem status_disabled_iff_blocking_falsy (apiKey : Option String) (env : StatsEnv)
    (v : JSValue)
    (hauth : authStep (apiKey.getD "") env.authBody = Except.ok v)
    (hsum : env.summaryOk = true) (hstat : env.statusOk = true)
    (fs : List (String × JSValue)) (hfs : env.summaryBody = JSValue.obj fs)
    (x1 x2 x3 x4 : JSValue)
    (hx1 : getField env.summaryBody "domains_being_blocked" = some x1)
    (hx2 : getField env.summaryBody "dns_queries_today" = some x2)
    (hx3 : getField env.summaryBody "ads_blocked_today" = some x3)
    (hx4 : getField env.summaryBody "ads_percentage_today" = some x4) :
    (env.statusBody.isNull = true →
      (statsFetchData apiKey env).error =
        some "TypeError: Cannot read properties of null (reading 'blocking')" ∧
      (statsFetchData apiKey env).data = JSValue.obj []) ∧
    (env.statusBody.isNull = false →
      (statsFetchData apiKey env).error = none ∧
      (getField (statsFetchData apiKey env).data "status" = some (JSValue.str "disabled") ↔
        ∃ b, getField env.statusBody "blocking" = some b ∧ jsTruthy b = false) ∧
      (getField env.statusBody "blocking" = none →
        getField (statsFetchData apiKey env).data "status" = some (JSValue.str "enabled"))) := by
  constructor
  · intro hsnull
    have htry : statsTry v env =
        Except.error "TypeError: Cannot read properties of null (reading 'blocking')" := by
      have hcond : ((getField env.summaryBody "domains_being_blocked").isNone
          || (getField env.summaryBody "dns_queries_today").isNone
          || (getField env.summaryBody "ads_blocked_today").isNone
          || (getField env.summaryBody "ads_percentage_today").isNone) = false := by
        rw [hx1, hx2, hx3, hx4]; rfl
      simp [statsTry, hsum, hstat, hcond, hsnull]
    constructor <;> simp [statsFetchData, hauth, htry]
  intro hsnull
  obtain ⟨d, hd, hstatus⟩ :=
    statsTry_status_field v env hsum hstat hsnull fs hfs x1 x2 x3 x4 hx1 hx2 hx3 hx4
  have hout : statsFetchData apiKey env = { data := d, error := none } := by
    simp [statsFetchData, hauth, hd]
  rw [hout]
  refine ⟨rfl, ?_, ?_⟩
  · rw [hstatus]
    cases hblk : getField env.statusBody "blocking" with
    | none =>
        constructor
        · intro h
          simp [jsTruthy] at h
        · rintro ⟨b, hb, _⟩
          exact Option.noConfusion hb
    | some b =>
        cases htb : jsTruthy b with
        | true =>
            constructor
            · intro h
              simp [htb, jsTruthy] at h
            · rintro ⟨c, hc, hcf⟩
              rw [Option.some_inj] at hc
              rw [← hc] at hcf
              rw [htb] at hcf
              exact Bool.noConfusion hcf
        | false =>
            constructor
            · intro _
              exact ⟨b, rfl, htb⟩
            · intro _
              simp [htb, jsTruthy]
  · intro hblk
    rw [hstatus, hblk]
    simp [jsTruthy]

/-- C7, witness: the end-to-end scenario — all four summary fields
present and a blocking call returning `{blocking: false}` — emits
`status = "disabled"` without error. -/
theorem status_disabled_iff_blocking_falsy_witness :
    getField (statsFetchData (some "s3cr3t")
      { authBody := JSValue.obj [("session", JSValue.obj [("sid", JSValue.str "tok")])],
        summaryOk := true,
        summaryBody := JSValue.obj [("domains_being_blocked", JSValue.num 1),
          ("dns_queries_today", JSValue.num 2), ("ads_blocked_today", JSValue.num 3),
          ("ads_percentage_today", JSValue.num 4)],
        statusOk := true,
        statusBody := JSValue.obj [("blocking", JSValue.bool false)] }).data "status" =
      some (JSValue.str "disabled") := by
  have h := status_disabled_iff_blocking_falsy (some "s3cr3t")
    { authBody := JSValue.obj [("session", JSValue.obj [("sid", JSValue.str "tok")])],
      summaryOk := true,
      summaryBody := JSValue.obj [("domains_being_blocked", JSValue.num 1),
        ("dns_queries_today", JSValue.num 2), ("ads_blocked_today", JSValue.num 3),
        ("ads_percentage_today", JSValue.num 4)],
      statusOk := true,
      statusBody := JSValue.obj [("blocking", JSValue.bool false)] }
    (JSValue.str "tok") (by rfl) rfl rfl _ rfl
    (JSValue.num 1) (JSValue.num 2) (JSValue.num 3) (JSValue.num 4) rfl rfl rfl rfl
  exact (h.2 rfl).2.1.mpr ⟨JSValue.bool false, rfl, rfl⟩


/-- C4: the reconstruction produces `min`-many labeled points from
`min`-many bucket timestamps; with exactly 144 points the first
timestamp is `now - 24h` (i.e. adding 24h back gives `now`), with any
other positive count it is the start of the current local day (the
unique multiple of 86400000 ms at or before `now` and less than 24h
before it); consecutive bucket timestamps always differ by exactly
600000 ms. -/
theorem reconstruct_start_time_policy (domains ads : List JSValue) (now : Nat)
    (hnow : 86400000 ≤ now) :
    (reconstruct domains ads now).labels =
      (bucketTimes (min domains.length ads.length) now).map formatLabel ∧
    (reconstruct domains ads now).labels.length = min domains.length ads.length ∧
    (min domains.length ads.length = 144 →
      (reconstruct domains ads now).labels.length = 144 ∧
      (bucketTimes 144 now).head? = some (now - 86400000) ∧
      now - 86400000 + 86400000 = now) ∧
    (min domains.length ads.length ≠ 144 → 0 < min domains.length ads.length →
      (bucketTimes (min domains.length ads.length) now).head? =
        some (now - now % 86400000) ∧
      (now - now % 86400000) % 86400000 = 0 ∧
      now - now % 86400000 ≤ now ∧
      now < now - now % 86400000 + 86400000) ∧
    (∀ i, i + 1 < min domains.length ads.length →
      (bucketTimes (min domains.length ads.length) now)[i + 1]? =
        Option.map (fun t => t + 600000)
          ((bucketTimes (min domains.length ads.length) now)[i]?)) := by
  refine ⟨rfl, ?_, ?_, ?_, ?_⟩
  · simp [reconstruct, bucketTimes]
  · intro h
    refine ⟨by simp [reconstruct, bucketTimes, h], ?_, by omega⟩
    rw [List.head?_eq_getElem?, bucketTimes, List.getElem?_map,
      List.getElem?_range (by omega : (0 : Nat) < 144)]
    simp [trafficStartTime]
  · intro h hpos
    refine ⟨?_, by omega, by omega, by omega⟩
    rw [List.head?_eq_getElem?, bucketTimes, List.getElem?_map, List.getElem?_range hpos]
    simp [trafficStartTime, h]
  · intro i hi
    rw [bucketTimes, List.getElem?_map, List.getElem?_map, List.getElem?_range hi,
      List.getElem?_range (by omega : i < min domains.length ads.length)]
    simp only [Option.map_some']
    congr 1
    omega

/-- C4, witness: two series of 144 samples with `now` two days into the
epoch start exactly 24 hours earlier. -/
theorem reconstruct_start_time_policy_witness :
    86400000 ≤ 172800000 ∧
    min (List.replicate 144 (JSValue.num 0)).length
        (List.replicate 144 (JSValue.num 0)).length = 144 ∧
    (bucketTimes 144 172800000).head? = some (172800000 - 86400000) :=
  ⟨by decide, by simp,
    ((reconstruct_start_time_policy (List.replicate 144 (JSValue.num 0))
       (List.replicate 144 (JSValue.num 0)) 172800000 (by decide)).2.2.1
       (by simp)).2.1⟩

/-- C5: both output series are the input series truncated to the
common minimum length — extra trailing samples are dropped with no
error (`reconstruct` is total), and every surviving index holds exactly
the input's sample at that index, preserving order. -/
theorem reconstruct_truncates_to_min (domains ads : List JSValue) (now : Nat) :
    (reconstruct domains ads now).queriesData =
      domains.take (min domains.length ads.length) ∧
    (reconstruct domains ads now).blockedData =
      ads.take (min domains.length ads.length) ∧
    (reconstruct domains ads now).queriesData.length = min domains.length ads.length ∧
    (reconstruct domains ads now).blockedData.length = min domains.length ads.length ∧
    (∀ i, i < min domains.length ads.length →
      (reconstruct domains ads now).queriesData[i]? = domains[i]? ∧
      (reconstruct domains ads now).blockedData[i]? = ads[i]?) := by
  refine ⟨rfl, rfl, ?_, ?_, ?_⟩
  · simp only [reconstruct, List.length_take]
    omega
  · simp only [reconstruct, List.length_take]
    omega
  · intro i hi
    exact ⟨by simp [reconstruct, List.getElem?_take_of_lt hi],
      by simp [reconstruct, List.getElem?_take_of_lt hi]⟩

/-- C5, witness: mismatched series of lengths 2 and 3 truncate to 2
points, keeping the first input sample in place. -/
theorem reconstruct_truncates_to_min_witness :
    (0 : Nat) < min ([JSValue.num 1, JSValue.num 2] : List JSValue).length
        ([JSValue.num 3, JSValue.num 4, JSValue.num 5] : List JSValue).length ∧
    (reconstruct [JSValue.num 1, JSValue.num 2]
        [JSValue.num 3, JSValue.num 4, JSValue.num 5] 0).queriesData[0]? =
      some (JSValue.num 1) := by
  refine ⟨by decide, ?_⟩
  have h := (reconstruct_truncates_to_min [JSValue.num 1, JSValue.num 2]
    [JSValue.num 3, JSValue.num 4, JSValue.num 5] 0).2.2.2.2 0 (by decide)
  rw [h.1]
  rfl

/-- The minute component always renders as exactly two characters. -/
theorem labelMinuteStr_length (t : Nat) : (labelMinuteStr t).length = 2 := by
  have h : getMinutes t < 60 := Nat.mod_lt _ (by decide)
  have hb : ∀ m, m < 60 →
      ((if m < 10 then "0" ++ toString m else toString m) : String).length = 2 := by decide
  simpa [labelMinuteStr] using hb (getMinutes t) h

/-- The hour component is always between 1 and 12 — never 0. -/
theorem labelHour12_bounds (t : Nat) : 1 ≤ labelHour12 t ∧ labelHour12 t ≤ 12 := by
  have h : getHours t % 12 < 12 := Nat.mod_lt _ (by decide)
  simp only [labelHour12]
  by_cases h0 : getHours t % 12 = 0 <;> simp [h0] <;> omega

/-- C8: labels render on a 12-hour clock with an AM/PM suffix — the
hour figure is always in 1..12 (midnight and noon render as 12, never
0), the minutes are always two digits, the suffix is PM exactly from
hour 12 on — and the four reference times render as claimed. -/
theorem label_format :
    formatLabel 0 = "12:00 AM" ∧
    formatLabel 43200000 = "12:00 PM" ∧
    formatLabel 47100000 = "1:05 PM" ∧
    formatLabel 64500000 = "5:55 PM" ∧
    (∀ t, formatLabel t =
      toString (labelHour12 t) ++ ":" ++ labelMinuteStr t ++ " " ++ labelAmPm t) ∧
    (∀ t, 1 ≤ labelHour12 t ∧ labelHour12 t ≤ 12) ∧
    (∀ t, (labelMinuteStr t).length = 2) ∧
    (∀ t, labelAmPm t = if 12 ≤ getHours t then "PM" else "AM") :=
  ⟨by decide, by decide, by decide, by decide, fun t => rfl,
    labelHour12_bounds, labelMinuteStr_length, fun t => rfl⟩

end PiHole
